import Mathlib

/-!
Formal model of the cat25256 SPI EEPROM driver (src/cat25256.c, src/cat25256.h).

The driver is embedded at two levels of granularity, both translated directly
from the C source:

* `Cat25256`: a capability-level model.  The four injected bus capabilities
  (`read`, `write`, `cs_enable`, `cs_disable`) are modelled by an oracle
  `BusEnv` that maps the history of bus events performed so far to the status
  (and, for reads, the bytes) the capability returns.  Every capability
  invocation appends one `busEvent` to the trace, so "the operation performs
  no bus activity" is exactly "the trace is unchanged".  The unbounded
  busy-wait loop of `cat25256_atomic_wait_wip_completed` is given a fuel
  parameter; a `none` result means the loop was still running when the fuel
  ran out.

* `Split`: the address-range splitter (`cat25256_write`,
  `cat25256_write_address_aligned`, `cat25256_write_address_unaligned`)
  modelled at the granularity of the `cat25256_write_page` calls it issues.
  A page-write oracle `pwEnv` maps the page writes issued so far, plus the
  requested (address, length), to the status that page write returns; each
  function yields the driver status together with the list of
  (address, length) page writes it issued, in order.

Machine integers are modelled as `Nat` with explicit reductions modulo 2^32
(`uint32_t` arithmetic) and modulo 256 (`uint8_t` truncation) where the C
performs them.
-/

/-- Return values of the driver, from cat25256.h. -/
inductive memory_status_t where
  | MEMORY_STATUS_OK
  | MEMORY_STATUS_NOK
  | MEMORY_STATUS_INVALID_HANDLE
deriving DecidableEq

open memory_status_t

/-- Opcode WREN (0b00000110). -/
def WREN : Nat := 6
/-- Opcode WRDI (0b00000100). -/
def WRDI : Nat := 4
/-- Opcode RDSR (0b00000101). -/
def RDSR : Nat := 5
/-- Opcode WRSR (0b00000001). -/
def WRSR : Nat := 1
/-- Opcode READ (0b00000011). -/
def READ_OP : Nat := 3
/-- Opcode WRITE (0b00000010). -/
def WRITE_OP : Nat := 2
/-- Status-register busy bit (0x01). -/
def NREADY : Nat := 1
/-- Device page size in bytes. -/
def PAGE_SIZE : Nat := 64
/-- Modulus of uint32_t arithmetic. -/
def UINT32_LIMIT : Nat := 4294967296

namespace Cat25256

/-- One invocation of a bus capability, as recorded on the trace.
`ev_write` records the bytes handed to the write capability, `ev_read`
records the requested length. -/
inductive busEvent where
  | ev_cs_enable (cs : Nat)
  | ev_cs_disable (cs : Nat)
  | ev_write (data : List Nat)
  | ev_read (length : Nat)
deriving DecidableEq

/-- Behaviour of the injected bus capabilities: each answer may depend on the
full history of bus events performed so far. -/
structure BusEnv where
  write_status : List busEvent → List Nat → memory_status_t
  read_result : List busEvent → Nat → memory_status_t × List Nat
  cs_enable_status : List busEvent → Nat → memory_status_t
  cs_disable_status : List busEvent → Nat → memory_status_t

/-- Presence of the four capability pointers of `cat25256_handle_t`.
A NULL handle itself is modelled by `Option cat25256_handle_t = none`. -/
structure cat25256_handle_t where
  read_present : Bool
  write_present : Bool
  cs_enable_present : Bool
  cs_disable_present : Bool
deriving DecidableEq

/-- cat25256_check_handle: NULL test followed by the four capability tests, in
the order of the source (read, cs_disable, cs_enable, write). -/
def cat25256_check_handle : Option cat25256_handle_t → memory_status_t
  | none => MEMORY_STATUS_INVALID_HANDLE
  | some h =>
    if h.read_present = false then MEMORY_STATUS_INVALID_HANDLE
    else if h.cs_disable_present = false then MEMORY_STATUS_INVALID_HANDLE
    else if h.cs_enable_present = false then MEMORY_STATUS_INVALID_HANDLE
    else if h.write_present = false then MEMORY_STATUS_INVALID_HANDLE
    else MEMORY_STATUS_OK

/-- Invocation of handle->write: returns the capability status and the trace
extended by the event. -/
def cap_write (env : BusEnv) (tr : List busEvent) (data : List Nat) :
    memory_status_t × List busEvent :=
  (env.write_status tr data, tr ++ [busEvent.ev_write data])

/-- Invocation of handle->read: status, bytes delivered into the buffer, and
the extended trace. -/
def cap_read (env : BusEnv) (tr : List busEvent) (length : Nat) :
    memory_status_t × List Nat × List busEvent :=
  ((env.read_result tr length).1, (env.read_result tr length).2,
    tr ++ [busEvent.ev_read length])

/-- Invocation of handle->cs_enable. -/
def cap_cs_enable (env : BusEnv) (tr : List busEvent) (cs : Nat) :
    memory_status_t × List busEvent :=
  (env.cs_enable_status tr cs, tr ++ [busEvent.ev_cs_enable cs])

/-- Invocation of handle->cs_disable. -/
def cap_cs_disable (env : BusEnv) (tr : List busEvent) (cs : Nat) :
    memory_status_t × List busEvent :=
  (env.cs_disable_status tr cs, tr ++ [busEvent.ev_cs_disable cs])

/-- cat25256_atomic_read: framed read transaction.  Returns the status, the
buffer contents after the call, and the trace.  `data` is the buffer handed in
by the caller (returned unchanged when the header send fails). -/
def cat25256_atomic_read (env : BusEnv) (address : Nat) (data : List Nat)
    (length cs : Nat) (tr : List busEvent) :
    memory_status_t × List Nat × List busEvent :=
  let header := [READ_OP, address / 256 % 256, address % 256]
  let e := cap_cs_enable env tr cs
  let w := cap_write env e.2 header
  if w.1 ≠ MEMORY_STATUS_OK then
    let d := cap_cs_disable env w.2 cs
    (MEMORY_STATUS_NOK, data, d.2)
  else
    let r := cap_read env w.2 length
    let d := cap_cs_disable env r.2.2 cs
    (r.1, r.2.1, d.2)

/-- cat25256_read: handle check, then one framed read transaction. -/
def cat25256_read (env : BusEnv) (handle : Option cat25256_handle_t)
    (address : Nat) (data : List Nat) (length cs : Nat) (tr : List busEvent) :
    memory_status_t × List Nat × List busEvent :=
  let rc := cat25256_check_handle handle
  if rc ≠ MEMORY_STATUS_OK then (rc, data, tr)
  else cat25256_atomic_read env address data length cs tr

/-- cat25256_atomic_write_latch: chip-select scope around a one-byte opcode
send; returns the send status. -/
def cat25256_atomic_write_latch (env : BusEnv) (enable cs : Nat)
    (tr : List busEvent) : memory_status_t × List busEvent :=
  let e := cap_cs_enable env tr cs
  let w := cap_write env e.2 [enable]
  let d := cap_cs_disable env w.2 cs
  (w.1, d.2)

/-- cat25256_atomic_write_latch_enable: send WREN. -/
def cat25256_atomic_write_latch_enable (env : BusEnv) (cs : Nat)
    (tr : List busEvent) : memory_status_t × List busEvent :=
  cat25256_atomic_write_latch env WREN cs tr

/-- cat25256_atomic_write_latch_disable: send WRDI. -/
def cat25256_atomic_write_latch_disable (env : BusEnv) (cs : Nat)
    (tr : List busEvent) : memory_status_t × List busEvent :=
  cat25256_atomic_write_latch env WRDI cs tr

/-- cat25256_read_register: handle check, then RDSR opcode and a one-byte
read into the buffer.  `data` is the one-byte buffer content handed in; it is
replaced by the byte the read capability delivers (kept when the capability
delivers nothing, mirroring an untouched buffer). -/
def cat25256_read_register (env : BusEnv) (handle : Option cat25256_handle_t)
    (data cs : Nat) (tr : List busEvent) :
    memory_status_t × Nat × List busEvent :=
  let rc := cat25256_check_handle handle
  if rc ≠ MEMORY_STATUS_OK then (rc, data, tr)
  else
    let e := cap_cs_enable env tr cs
    let w := cap_write env e.2 [RDSR]
    if w.1 ≠ MEMORY_STATUS_OK then
      let d := cap_cs_disable env w.2 cs
      (MEMORY_STATUS_NOK, data, d.2)
    else
      let r := cap_read env w.2 1
      let d := cap_cs_disable env r.2.2 cs
      (r.1, r.2.1.headD data, d.2)

/-- cat25256_write_register: handle check, then the two-byte sequence
[WRSR, data] inside one chip-select scope. -/
def cat25256_write_register (env : BusEnv) (handle : Option cat25256_handle_t)
    (data cs : Nat) (tr : List busEvent) : memory_status_t × List busEvent :=
  let rc := cat25256_check_handle handle
  if rc ≠ MEMORY_STATUS_OK then (rc, tr)
  else
    let e := cap_cs_enable env tr cs
    let w := cap_write env e.2 [WRSR, data]
    let d := cap_cs_disable env w.2 cs
    (w.1, d.2)

/-- cat25256_atomic_write: framed write transaction; on header-send failure
the chip select is released and NOK returned without sending the payload,
otherwise the first `length` bytes of `data` are sent. -/
def cat25256_atomic_write (env : BusEnv) (address : Nat) (data : List Nat)
    (length cs : Nat) (tr : List busEvent) : memory_status_t × List busEvent :=
  let header := [WRITE_OP, address / 256 % 256, address % 256]
  let e := cap_cs_enable env tr cs
  let w := cap_write env e.2 header
  if w.1 ≠ MEMORY_STATUS_OK then
    let d := cap_cs_disable env w.2 cs
    (MEMORY_STATUS_NOK, d.2)
  else
    let w2 := cap_write env w.2 (data.take length)
    let d := cap_cs_disable env w2.2 cs
    (w2.1, d.2)

/-- Busy-wait loop body of cat25256_atomic_wait_wip_completed: while the
local `wip` byte has the NREADY bit set, re-read the status register;
a failing read returns NOK at once.  `fuel` bounds the number of reads the
model is allowed to perform; `none` means the C loop is still running after
`fuel` reads. -/
def cat25256_wait_go (env : BusEnv) (handle : Option cat25256_handle_t)
    (fuel wip cs : Nat) (tr : List busEvent) :
    Option memory_status_t × List busEvent :=
  if wip &&& NREADY = 0 then (some MEMORY_STATUS_OK, tr)
  else
    match fuel with
    | 0 => (none, tr)
    | Nat.succ fuel =>
      let r := cat25256_read_register env handle wip cs tr
      if r.1 ≠ MEMORY_STATUS_OK then (some MEMORY_STATUS_NOK, r.2.2)
      else cat25256_wait_go env handle fuel r.2.1 cs r.2.2

/-- cat25256_atomic_wait_wip_completed: poll the status register starting
from the local initialisation `wip = NREADY`. -/
def cat25256_atomic_wait_wip_completed (env : BusEnv)
    (handle : Option cat25256_handle_t) (fuel cs : Nat) (tr : List busEvent) :
    Option memory_status_t × List busEvent :=
  cat25256_wait_go env handle fuel NREADY cs tr

/-- cat25256_write_page: handle check; mark busy via the status register;
enable the write latch; framed write (on failure: disable the latch, then
NOK); disable the latch; busy-wait until the device is ready. -/
def cat25256_write_page (env : BusEnv) (handle : Option cat25256_handle_t)
    (fuel address : Nat) (data : List Nat) (length cs : Nat)
    (tr : List busEvent) : Option memory_status_t × List busEvent :=
  let rc := cat25256_check_handle handle
  if rc ≠ MEMORY_STATUS_OK then (some rc, tr)
  else
    let s1 := cat25256_write_register env handle NREADY cs tr
    if s1.1 ≠ MEMORY_STATUS_OK then (some MEMORY_STATUS_NOK, s1.2)
    else
      let s2 := cat25256_atomic_write_latch_enable env cs s1.2
      if s2.1 ≠ MEMORY_STATUS_OK then (some MEMORY_STATUS_NOK, s2.2)
      else
        let s3 := cat25256_atomic_write env address data length cs s2.2
        if s3.1 ≠ MEMORY_STATUS_OK then
          let s4 := cat25256_atomic_write_latch_disable env cs s3.2
          (some MEMORY_STATUS_NOK, s4.2)
        else
          let s4 := cat25256_atomic_write_latch_disable env cs s3.2
          let s5 := cat25256_atomic_wait_wip_completed env handle fuel cs s4.2
          match s5.1 with
          | none => (none, s5.2)
          | some st =>
            if st ≠ MEMORY_STATUS_OK then (some MEMORY_STATUS_NOK, s5.2)
            else (some rc, s5.2)

/-- Loop of cat25256_write_address_aligned: `for (i = 0; i < page_count; ++i)`
with the last iteration writing `length % PAGE_SIZE` bytes and every other
iteration a full page.  `n` counts the iterations still to run
(`n = page_count - i` at every call), making the recursion structural. -/
def cat25256_write_aligned_go (env : BusEnv)
    (handle : Option cat25256_handle_t) (fuel page_count i n address : Nat)
    (data : List Nat) (length cs : Nat) (tr : List busEvent) :
    Option memory_status_t × List busEvent :=
  match n with
  | 0 => (some MEMORY_STATUS_OK, tr)
  | Nat.succ n =>
    let len := if i = page_count - 1 then length % PAGE_SIZE else PAGE_SIZE
    let r := cat25256_write_page env handle fuel
        ((address + i * PAGE_SIZE) % UINT32_LIMIT) (data.drop (i * PAGE_SIZE))
        len cs tr
    match r.1 with
    | none => (none, r.2)
    | some st =>
      if st ≠ MEMORY_STATUS_OK then (some st, r.2)
      else cat25256_write_aligned_go env handle fuel page_count (i + 1) n
          address data length cs r.2

/-- cat25256_write_address_aligned: `page_count = length / PAGE_SIZE`, plus
one if the division leaves a remainder, then the page loop. -/
def cat25256_write_address_aligned (env : BusEnv)
    (handle : Option cat25256_handle_t) (fuel address : Nat) (data : List Nat)
    (length cs : Nat) (tr : List busEvent) :
    Option memory_status_t × List busEvent :=
  let page_count := length / PAGE_SIZE +
    (if length % PAGE_SIZE ≠ 0 then 1 else 0)
  cat25256_write_aligned_go env handle fuel page_count 0 page_count address
    data length cs tr

/-- cat25256_write_address_unaligned: one page write of
`PAGE_SIZE - address % PAGE_SIZE` bytes (clamped to `length`), then, if bytes
remain, the aligned case on the rest. -/
def cat25256_write_address_unaligned (env : BusEnv)
    (handle : Option cat25256_handle_t) (fuel address : Nat) (data : List Nat)
    (length cs : Nat) (tr : List busEvent) :
    Option memory_status_t × List busEvent :=
  let lft0 := PAGE_SIZE - address % PAGE_SIZE
  let lft := if lft0 > length then length else lft0
  let r := cat25256_write_page env handle fuel address data lft cs tr
  match r.1 with
  | none => (none, r.2)
  | some st =>
    if st ≠ MEMORY_STATUS_OK then (some st, r.2)
    else
      let lr := length - lft
      if lr > 0 then
        cat25256_write_address_aligned env handle fuel
          ((address + lft) % UINT32_LIMIT) (data.drop lft) lr cs r.2
      else (some st, r.2)

/-- cat25256_write: single page write for small requests, otherwise the
aligned or the unaligned decomposition. -/
def cat25256_write (env : BusEnv) (handle : Option cat25256_handle_t)
    (fuel address : Nat) (data : List Nat) (length cs : Nat)
    (tr : List busEvent) : Option memory_status_t × List busEvent :=
  if length ≤ PAGE_SIZE then
    cat25256_write_page env handle fuel address data length cs tr
  else if address % PAGE_SIZE = 0 then
    cat25256_write_address_aligned env handle fuel address data length cs tr
  else
    cat25256_write_address_unaligned env handle fuel address data length cs tr

end Cat25256

namespace Split

/-- Page-write oracle of the splitter-level model: given the page writes
issued so far (each an (address, length) pair) and the address and length of
the page write now being issued, the status that `cat25256_write_page`
returns for it. -/
def pwEnv : Type := List (Nat × Nat) → Nat → Nat → memory_status_t

/-- One `cat25256_write_page` call, at splitter granularity: the status the
oracle assigns, and the single issued page write. -/
def write_page_call (env : pwEnv) (tr : List (Nat × Nat)) (address length : Nat) :
    memory_status_t × List (Nat × Nat) :=
  (env tr address length, [(address, length)])

/-- Loop of cat25256_write_address_aligned at splitter granularity; `tr` is
the history handed to the oracle, `n = page_count - i` makes the recursion
structural.  Returns the status and the page writes issued by the remaining
iterations, in order. -/
def write_aligned_go (env : pwEnv) (page_count i n address length : Nat)
    (tr : List (Nat × Nat)) : memory_status_t × List (Nat × Nat) :=
  match n with
  | 0 => (MEMORY_STATUS_OK, [])
  | Nat.succ n =>
    let len := if i = page_count - 1 then length % PAGE_SIZE else PAGE_SIZE
    let c : Nat × Nat := ((address + i * PAGE_SIZE) % UINT32_LIMIT, len)
    let rc := env tr c.1 c.2
    if rc ≠ MEMORY_STATUS_OK then (rc, [c])
    else
      let r := write_aligned_go env page_count (i + 1) n address length
          (tr ++ [c])
      (r.1, c :: r.2)

/-- cat25256_write_address_aligned at splitter granularity. -/
def cat25256_write_address_aligned (env : pwEnv) (address length : Nat)
    (tr : List (Nat × Nat)) : memory_status_t × List (Nat × Nat) :=
  let page_count := length / PAGE_SIZE +
    (if length % PAGE_SIZE ≠ 0 then 1 else 0)
  write_aligned_go env page_count 0 page_count address length tr

/-- cat25256_write_address_unaligned at splitter granularity. -/
def cat25256_write_address_unaligned (env : pwEnv) (address length : Nat)
    (tr : List (Nat × Nat)) : memory_status_t × List (Nat × Nat) :=
  let lft0 := PAGE_SIZE - address % PAGE_SIZE
  let lft := if lft0 > length then length else lft0
  let c : Nat × Nat := (address, lft)
  let rc := env tr c.1 c.2
  if rc ≠ MEMORY_STATUS_OK then (rc, [c])
  else
    let lr := length - lft
    if lr > 0 then
      let r := cat25256_write_address_aligned env
          ((address + lft) % UINT32_LIMIT) lr (tr ++ [c])
      (r.1, c :: r.2)
    else (rc, [c])

/-- cat25256_write at splitter granularity. -/
def cat25256_write (env : pwEnv) (address length : Nat)
    (tr : List (Nat × Nat)) : memory_status_t × List (Nat × Nat) :=
  if length ≤ PAGE_SIZE then
    let rc := env tr address length
    (rc, [(address, length)])
  else if address % PAGE_SIZE = 0 then
    cat25256_write_address_aligned env address length tr
  else
    cat25256_write_address_unaligned env address length tr

/-- Statuses the oracle assigned to a sequence of page writes issued after
history `tr`, in issue order. -/
def callStatuses (env : pwEnv) : List (Nat × Nat) → List (Nat × Nat) →
    List memory_status_t
  | _, [] => []
  | tr, c :: Δ => env tr c.1 c.2 :: callStatuses env (tr ++ [c]) Δ

/-- Total number of bytes covered by a sequence of page writes. -/
def totalLen (calls : List (Nat × Nat)) : Nat :=
  (calls.map Prod.snd).sum

/-- Page-write oracle that reports success for every page write. -/
def pwAllOk : pwEnv := fun _ _ _ => MEMORY_STATUS_OK

/-- Page-write oracle that fails exactly the second page write issued. -/
def pwFailSecond : pwEnv := fun tr _ _ =>
  if tr.length = 1 then MEMORY_STATUS_NOK else MEMORY_STATUS_OK

end Split

namespace Cat25256

/-- Bus environment in which every capability call succeeds and every read
delivers a zero byte (device ready). -/
def busAllOk : BusEnv :=
  BusEnv.mk (fun _ _ => MEMORY_STATUS_OK)
    (fun _ _ => (MEMORY_STATUS_OK, [0]))
    (fun _ _ => MEMORY_STATUS_OK) (fun _ _ => MEMORY_STATUS_OK)

/-- Bus environment in which reads and writes succeed but every chip-select
enable and disable reports failure. -/
def busCsFail : BusEnv :=
  BusEnv.mk (fun _ _ => MEMORY_STATUS_OK)
    (fun _ _ => (MEMORY_STATUS_OK, [0]))
    (fun _ _ => MEMORY_STATUS_NOK) (fun _ _ => MEMORY_STATUS_NOK)

/-- Bus environment in which the seventh and all later bus operations make
the write capability fail: during a `cat25256_write_page` started on an empty
trace this makes the header send of the framed write fail. -/
def busWriteFailLate : BusEnv :=
  BusEnv.mk
    (fun h _ => if h.length < 7 then MEMORY_STATUS_OK else MEMORY_STATUS_NOK)
    (fun _ _ => (MEMORY_STATUS_OK, [0]))
    (fun _ _ => MEMORY_STATUS_OK) (fun _ _ => MEMORY_STATUS_OK)

/-- Bus environment in which the read capability always fails. -/
def busReadFail : BusEnv :=
  BusEnv.mk (fun _ _ => MEMORY_STATUS_OK)
    (fun _ _ => (MEMORY_STATUS_NOK, [NREADY]))
    (fun _ _ => MEMORY_STATUS_OK) (fun _ _ => MEMORY_STATUS_OK)

/-- Bus environment in which every capability call succeeds and every read
delivers the busy byte: the device never becomes ready. -/
def busBusy : BusEnv :=
  BusEnv.mk (fun _ _ => MEMORY_STATUS_OK)
    (fun _ _ => (MEMORY_STATUS_OK, [NREADY]))
    (fun _ _ => MEMORY_STATUS_OK) (fun _ _ => MEMORY_STATUS_OK)

/-- Handle with all four capabilities present. -/
def handleAllPresent : Option cat25256_handle_t :=
  some (cat25256_handle_t.mk true true true true)

/-- Handle whose read capability is absent. -/
def handleNoRead : Option cat25256_handle_t :=
  some (cat25256_handle_t.mk false true true true)

/-- The handle is NULL or misses at least one of the four capabilities. -/
def handleMissingCapability (handle : Option cat25256_handle_t) : Prop :=
  handle = none ∨ ∃ h, handle = some h ∧
    (h.read_present = false ∨ h.write_present = false ∨
      h.cs_enable_present = false ∨ h.cs_disable_present = false)

/-- Matcher for read events, used to state that no busy-poll happened. -/
def isReadEvent : busEvent → Bool
  | busEvent.ev_read _ => true
  | _ => false

/-- Matcher for chip-select-enable events on line `cs`. -/
def isCsEnable (cs : Nat) : busEvent → Bool
  | busEvent.ev_cs_enable c => c == cs
  | _ => false

/-- Matcher for chip-select-disable events on line `cs`. -/
def isCsDisable (cs : Nat) : busEvent → Bool
  | busEvent.ev_cs_disable c => c == cs
  | _ => false

/-- State of the chip-select line `cs` after replaying the events `Δ` from
the initial state `b` (enable asserts, disable deasserts, other events leave
it unchanged). -/
def selectedAfter (b : Bool) (Δ : List busEvent) (cs : Nat) : Bool :=
  Δ.foldl (fun s e =>
    match e with
    | busEvent.ev_cs_enable c => if c = cs then true else s
    | busEvent.ev_cs_disable c => if c = cs then false else s
    | _ => s) b

/-- A call that received the trace `tr` and produced the trace `tr'`
balanced its chip-select activity on line `cs`: among the events it
appended, enables and disables are equally many, and replaying the appended
events leaves the line deasserted whenever any event was appended (and
untouched otherwise). -/
def csBalanced (tr tr' : List busEvent) (cs : Nat) : Prop :=
  (tr'.drop tr.length).countP (isCsEnable cs) =
    (tr'.drop tr.length).countP (isCsDisable cs) ∧
  ∀ b : Bool, selectedAfter b (tr'.drop tr.length) cs =
    (if tr'.drop tr.length = [] then b else false)

end Cat25256

open Cat25256

/-- Auxiliary: specification of a run that issued a single page write whose
status is the run's status. -/
lemma split_leaf_spec (env : Split.pwEnv) (tr : List (Nat × Nat))
    (c : Nat × Nat) (st : memory_status_t) (hst : env tr c.1 c.2 = st) :
    (st = MEMORY_STATUS_OK →
      ∀ s ∈ Split.callStatuses env tr [c], s = MEMORY_STATUS_OK) ∧
    (st ≠ MEMORY_STATUS_OK →
      (Split.callStatuses env tr [c]).getLast? = some st ∧
      ∀ s ∈ (Split.callStatuses env tr [c]).dropLast, s = MEMORY_STATUS_OK) := by
  constructor
  · intro hok s hs
    simp [Split.callStatuses, hst] at hs
    rw [hs]
    exact hok
  · intro hne
    constructor
    · simp [Split.callStatuses, hst]
    · intro s hs
      simp [Split.callStatuses] at hs

/-- Auxiliary: a successful page write followed by a run satisfying the
sequencing specification again satisfies it. -/
lemma split_cons_spec (env : Split.pwEnv) (tr : List (Nat × Nat))
    (c : Nat × Nat) (Δ : List (Nat × Nat)) (st : memory_status_t)
    (hc : env tr c.1 c.2 = MEMORY_STATUS_OK)
    (h1 : st = MEMORY_STATUS_OK →
      ∀ s ∈ Split.callStatuses env (tr ++ [c]) Δ, s = MEMORY_STATUS_OK)
    (h2 : st ≠ MEMORY_STATUS_OK →
      (Split.callStatuses env (tr ++ [c]) Δ).getLast? = some st ∧
      ∀ s ∈ (Split.callStatuses env (tr ++ [c]) Δ).dropLast,
        s = MEMORY_STATUS_OK) :
    (st = MEMORY_STATUS_OK →
      ∀ s ∈ Split.callStatuses env tr (c :: Δ), s = MEMORY_STATUS_OK) ∧
    (st ≠ MEMORY_STATUS_OK →
      (Split.callStatuses env tr (c :: Δ)).getLast? = some st ∧
      ∀ s ∈ (Split.callStatuses env tr (c :: Δ)).dropLast,
        s = MEMORY_STATUS_OK) := by
  constructor
  · intro hok s hs
    simp only [Split.callStatuses] at hs
    rcases List.mem_cons.mp hs with h | h
    · rw [h]
      exact hc
    · exact h1 hok s h
  · intro hne
    obtain ⟨hlast, hdrop⟩ := h2 hne
    have hne2 : Split.callStatuses env (tr ++ [c]) Δ ≠ [] := by
      intro hnil
      rw [hnil] at hlast
      simp at hlast
    obtain ⟨x, xs, hxxs⟩ := List.exists_cons_of_ne_nil hne2
    rw [hxxs] at hlast hdrop
    constructor
    · simp only [Split.callStatuses, hxxs]
      rw [List.getLast?_cons_cons]
      exact hlast
    · simp only [Split.callStatuses, hxxs, hc]
      rw [List.dropLast_cons₂]
      intro s hs
      rcases List.mem_cons.mp hs with h | h
      · exact h
      · exact hdrop s h

/-- Auxiliary: the aligned page loop issues page writes strictly in sequence;
every page write before the last one returned OK, and a non-OK run status is
the status of the last page write issued. -/
lemma split_aligned_go_spec (env : Split.pwEnv)
    (page_count address length : Nat) :
    ∀ n i tr st Δ,
      Split.write_aligned_go env page_count i n address length tr = (st, Δ) →
      ((st = MEMORY_STATUS_OK →
        ∀ s ∈ Split.callStatuses env tr Δ, s = MEMORY_STATUS_OK) ∧
       (st ≠ MEMORY_STATUS_OK →
        (Split.callStatuses env tr Δ).getLast? = some st ∧
        ∀ s ∈ (Split.callStatuses env tr Δ).dropLast,
          s = MEMORY_STATUS_OK)) := by
  intro n
  induction n with
  | zero =>
    intro i tr st Δ h
    simp only [Split.write_aligned_go] at h
    injection h with ha hb
    subst ha
    subst hb
    constructor
    · intro _ s hs
      simp [Split.callStatuses] at hs
    · intro hne
      exact absurd rfl hne
  | succ n ih =>
    intro i tr st Δ h
    simp only [Split.write_aligned_go] at h
    by_cases henv : env tr ((address + i * PAGE_SIZE) % UINT32_LIMIT)
        (if i = page_count - 1 then length % PAGE_SIZE else PAGE_SIZE) =
        MEMORY_STATUS_OK
    · rcases hgo : Split.write_aligned_go env page_count (i + 1) n address
          length (tr ++ [((address + i * PAGE_SIZE) % UINT32_LIMIT,
            if i = page_count - 1 then length % PAGE_SIZE else PAGE_SIZE)])
        with ⟨st', Δ'⟩
      simp only [henv, ne_eq, not_true_eq_false, if_false, hgo] at h
      injection h with ha hb
      subst ha
      subst hb
      have IH := ih (i + 1)
        (tr ++ [((address + i * PAGE_SIZE) % UINT32_LIMIT,
          if i = page_count - 1 then length % PAGE_SIZE else PAGE_SIZE)])
        st' Δ' hgo
      exact split_cons_spec env tr _ Δ' st' henv IH.1 IH.2
    · simp only [ne_eq, henv, not_false_eq_true, if_true] at h
      injection h with ha hb
      subst ha
      subst hb
      exact split_leaf_spec env tr _ _ rfl

/-- C1: the claim states that for page-aligned addresses and lengths greater
than the page size the splitter issues ceil(l/64) page-writes covering
[a, a+l) with the last one a full page when l is an exact multiple of 64, so
that write(address=64, length=128) issues two full 64-byte page-writes at 64
and 128.  The code disagrees: evaluated at that very input (with every page
write succeeding), `cat25256_write_address_aligned` computes the length of
the final page write as `length % PAGE_SIZE = 0`, so the driver issues the
page writes (64, 64) and (128, 0), transmitting only 64 of the 128 bytes. -/
theorem claim_C1 :
    Split.cat25256_write Split.pwAllOk 64 128 [] =
      (MEMORY_STATUS_OK, [(64, 64), (128, 0)]) ∧
    Split.totalLen (Split.cat25256_write Split.pwAllOk 64 128 []).2 = 64 := by
  constructor
  · decide
  · decide

/-- C2: the claim states that for an unaligned address and length greater
than the page size the first page write reaches the next page boundary and
the remaining page writes cover exactly the remaining l - (boundary - a)
bytes.  The code disagrees when the remainder is an exact multiple of 64:
at address 32 and length 96 the first page write is (32, 32) as claimed, but
the remaining 64 bytes are handed to the aligned case, which issues the
single zero-length page write (64, 0), so only 32 of the 96 bytes are
transmitted. -/
theorem claim_C2 :
    Split.cat25256_write Split.pwAllOk 32 96 [] =
      (MEMORY_STATUS_OK, [(32, 32), (64, 0)]) ∧
    Split.totalLen (Split.cat25256_write Split.pwAllOk 32 96 []).2 = 32 := by
  constructor
  · decide
  · decide

/-- C3: for every address and every length at most the page size (64),
cat25256_write issues exactly one page write covering the whole range
[a, a+l) regardless of alignment, and returns that page write's status. -/
theorem claim_C3 (env : Split.pwEnv) (address length : Nat)
    (tr : List (Nat × Nat)) (h : length ≤ PAGE_SIZE) :
    Split.cat25256_write env address length tr =
      (env tr address length, [(address, length)]) := by
  simp only [Split.cat25256_write, if_pos h]

/-- Witness for C3 at the spec's boundary-crossing scenario: a write of 10
bytes at address 60 is a single page write (60, 10). -/
theorem claim_C3_witness :
    Split.cat25256_write Split.pwAllOk 60 10 [] =
      (MEMORY_STATUS_OK, [(60, 10)]) :=
  claim_C3 Split.pwAllOk 60 10 [] (by decide)

/-- C6: in the splitter (over the small, aligned and unaligned
decompositions alike) page writes are issued strictly in sequence: when the
run succeeds every issued page write returned OK, and when it fails the
failing page write is the last one issued (its status is the run's result,
returned immediately) while every earlier page write returned OK. -/
theorem claim_C6 (env : Split.pwEnv) (address length : Nat)
    (tr : List (Nat × Nat)) (st : memory_status_t) (Δ : List (Nat × Nat))
    (h : Split.cat25256_write env address length tr = (st, Δ)) :
    (st = MEMORY_STATUS_OK →
      ∀ s ∈ Split.callStatuses env tr Δ, s = MEMORY_STATUS_OK) ∧
    (st ≠ MEMORY_STATUS_OK →
      (Split.callStatuses env tr Δ).getLast? = some st ∧
      ∀ s ∈ (Split.callStatuses env tr Δ).dropLast,
        s = MEMORY_STATUS_OK) := by
  simp only [Split.cat25256_write] at h
  by_cases hlen : length ≤ PAGE_SIZE
  · simp only [if_pos hlen] at h
    injection h with ha hb
    subst ha
    subst hb
    exact split_leaf_spec env tr (address, length) _ rfl
  · simp only [if_neg hlen] at h
    by_cases hal : address % PAGE_SIZE = 0
    · simp only [if_pos hal, Split.cat25256_write_address_aligned] at h
      exact split_aligned_go_spec env _ address length _ 0 tr st Δ h
    · simp only [if_neg hal, Split.cat25256_write_address_unaligned] at h
      by_cases henv : env tr address
          (if PAGE_SIZE - address % PAGE_SIZE > length then length
            else PAGE_SIZE - address % PAGE_SIZE) = MEMORY_STATUS_OK
      · by_cases hlr : 0 < length -
            (if PAGE_SIZE - address % PAGE_SIZE > length then length
              else PAGE_SIZE - address % PAGE_SIZE)
        · rcases hga : Split.cat25256_write_address_aligned env
              ((address +
                (if PAGE_SIZE - address % PAGE_SIZE > length then length
                  else PAGE_SIZE - address % PAGE_SIZE)) % UINT32_LIMIT)
              (length -
                (if PAGE_SIZE - address % PAGE_SIZE > length then length
                  else PAGE_SIZE - address % PAGE_SIZE))
              (tr ++ [(address,
                if PAGE_SIZE - address % PAGE_SIZE > length then length
                  else PAGE_SIZE - address % PAGE_SIZE)]) with ⟨st', Δ'⟩
          simp only [henv, ne_eq, not_true_eq_false, if_false, hlr,
            if_true, hga] at h
          injection h with ha hb
          subst ha
          subst hb
          have IH := split_aligned_go_spec env _ _ _ _ 0 _ st' Δ'
            (by simpa [Split.cat25256_write_address_aligned] using hga)
          exact split_cons_spec env tr _ Δ' st' henv IH.1 IH.2
        · simp only [henv, ne_eq, not_true_eq_false, if_false, hlr] at h
          injection h with ha hb
          subst ha
          subst hb
          exact split_leaf_spec env tr (address, _) _ henv
      · simp only [ne_eq, henv, not_false_eq_true, if_true] at h
        injection h with ha hb
        subst ha
        subst hb
        exact split_leaf_spec env tr (address, _) _ rfl

/-- Witness for C6: with an oracle that fails exactly the second page write,
a 130-byte aligned write at address 0 issues the page writes (0, 64) and
(64, 64), fails with NOK, the failing page write is the last one issued, and
the page write before it returned OK. -/
theorem claim_C6_witness :
    (Split.callStatuses Split.pwFailSecond [] [(0, 64), (64, 64)]).getLast? =
      some MEMORY_STATUS_NOK ∧
    ∀ s ∈ (Split.callStatuses Split.pwFailSecond []
      [(0, 64), (64, 64)]).dropLast, s = MEMORY_STATUS_OK :=
  (claim_C6 Split.pwFailSecond 0 130 [] MEMORY_STATUS_NOK
    [(0, 64), (64, 64)] (by decide)).2 (by decide)

/-- Auxiliary: a NULL handle or a handle with a missing capability fails the
handle check with the invalid-handle status. -/
lemma check_handle_of_missing (handle : Option cat25256_handle_t)
    (hm : handleMissingCapability handle) :
    cat25256_check_handle handle = MEMORY_STATUS_INVALID_HANDLE := by
  rcases hm with hnone | ⟨h, hsome, hflags⟩
  · subst hnone
    rfl
  · subst hsome
    obtain ⟨r, w, ce, cd⟩ := h
    cases r <;> cases w <;> cases ce <;> cases cd <;>
      simp_all [cat25256_check_handle]

/-- Auxiliary: cat25256_write_page fails fast on an invalid handle, touching
nothing on the bus. -/
lemma cat25256_write_page_invalid (env : BusEnv)
    (handle : Option cat25256_handle_t)
    (hch : cat25256_check_handle handle = MEMORY_STATUS_INVALID_HANDLE)
    (fuel address : Nat) (data : List Nat) (length cs : Nat)
    (tr : List busEvent) :
    cat25256_write_page env handle fuel address data length cs tr =
      (some MEMORY_STATUS_INVALID_HANDLE, tr) := by
  simp [cat25256_write_page, hch]

/-- C4: every public operation on a NULL handle, or on a handle missing any
one of the four capabilities, returns MEMORY_STATUS_INVALID_HANDLE and
invokes no capability: the bus-event trace is unchanged. -/
theorem claim_C4 (env : BusEnv) (handle : Option cat25256_handle_t)
    (fuel address : Nat) (data : List Nat) (length b cs : Nat)
    (tr : List busEvent) (hm : handleMissingCapability handle) :
    cat25256_read env handle address data length cs tr =
      (MEMORY_STATUS_INVALID_HANDLE, data, tr) ∧
    cat25256_write env handle fuel address data length cs tr =
      (some MEMORY_STATUS_INVALID_HANDLE, tr) ∧
    cat25256_write_page env handle fuel address data length cs tr =
      (some MEMORY_STATUS_INVALID_HANDLE, tr) ∧
    cat25256_read_register env handle b cs tr =
      (MEMORY_STATUS_INVALID_HANDLE, b, tr) ∧
    cat25256_write_register env handle b cs tr =
      (MEMORY_STATUS_INVALID_HANDLE, tr) := by
  have hch := check_handle_of_missing handle hm
  refine ⟨?_, ?_, cat25256_write_page_invalid env handle hch fuel address
    data length cs tr, ?_, ?_⟩
  · simp [cat25256_read, hch]
  · by_cases hlen : length ≤ PAGE_SIZE
    · simp [cat25256_write, hlen, cat25256_write_page_invalid env handle hch]
    · by_cases hal : address % PAGE_SIZE = 0
      · simp only [cat25256_write, if_neg hlen, if_pos hal,
          cat25256_write_address_aligned]
        have h64 : PAGE_SIZE ≤ length := le_of_lt (lt_of_not_le hlen)
        have hdiv : 1 ≤ length / PAGE_SIZE :=
          (Nat.one_le_div_iff (by decide)).mpr h64
        have hpos : 0 < length / PAGE_SIZE +
            (if length % PAGE_SIZE ≠ 0 then 1 else 0) :=
          lt_of_lt_of_le hdiv (Nat.le_add_right _ _)
        obtain ⟨m, hmq⟩ :=
          Nat.exists_eq_succ_of_ne_zero (Nat.pos_iff_ne_zero.mp hpos)
        rw [hmq]
        simp [cat25256_write_aligned_go,
          cat25256_write_page_invalid env handle hch]
      · simp [cat25256_write, hlen, hal, cat25256_write_address_unaligned,
          cat25256_write_page_invalid env handle hch]
  · simp [cat25256_read_register, hch]
  · simp [cat25256_write_register, hch]

/-- Witness for C4: a handle whose read capability is absent makes every
public operation return the invalid-handle status with an unchanged (empty)
trace. -/
theorem claim_C4_witness :
    handleMissingCapability handleNoRead ∧
    (cat25256_read busAllOk handleNoRead 0 [7] 1 0 [] =
      (MEMORY_STATUS_INVALID_HANDLE, [7], []) ∧
    cat25256_write busAllOk handleNoRead 1 0 [7] 1 0 [] =
      (some MEMORY_STATUS_INVALID_HANDLE, []) ∧
    cat25256_write_page busAllOk handleNoRead 1 0 [7] 1 0 [] =
      (some MEMORY_STATUS_INVALID_HANDLE, []) ∧
    cat25256_read_register busAllOk handleNoRead 7 0 [] =
      (MEMORY_STATUS_INVALID_HANDLE, 7, []) ∧
    cat25256_write_register busAllOk handleNoRead 7 0 [] =
      (MEMORY_STATUS_INVALID_HANDLE, [])) :=
  ⟨Or.inr ⟨cat25256_handle_t.mk false true true true, rfl, Or.inl rfl⟩,
    claim_C4 busAllOk handleNoRead 1 0 [7] 1 7 0 []
      (Or.inr ⟨cat25256_handle_t.mk false true true true, rfl, Or.inl rfl⟩)⟩

/-- Auxiliary: the read transaction balances its chip-select activity. -/
lemma atomic_read_csBalanced (env : BusEnv) (address : Nat) (data : List Nat)
    (length cs : Nat) (tr : List busEvent) :
    csBalanced tr (cat25256_atomic_read env address data length cs tr).2.2
      cs := by
  simp only [cat25256_atomic_read, cap_cs_enable, cap_write, cap_read,
    cap_cs_disable]
  by_cases hw : env.write_status (tr ++ [busEvent.ev_cs_enable cs])
      [READ_OP, address / 256 % 256, address % 256] = MEMORY_STATUS_OK <;>
    simp [hw, csBalanced, List.append_assoc, List.drop_left, isCsEnable,
      isCsDisable, selectedAfter]

/-- Auxiliary: the write transaction balances its chip-select activity. -/
lemma atomic_write_csBalanced (env : BusEnv) (address : Nat)
    (data : List Nat) (length cs : Nat) (tr : List busEvent) :
    csBalanced tr (cat25256_atomic_write env address data length cs tr).2
      cs := by
  simp only [cat25256_atomic_write, cap_cs_enable, cap_write,
    cap_cs_disable]
  by_cases hw : env.write_status (tr ++ [busEvent.ev_cs_enable cs])
      [WRITE_OP, address / 256 % 256, address % 256] = MEMORY_STATUS_OK <;>
    simp [hw, csBalanced, List.append_assoc, List.drop_left, isCsEnable,
      isCsDisable, selectedAfter]

/-- Auxiliary: the write-latch primitive (both the enable and the disable
opcode) balances its chip-select activity. -/
lemma atomic_write_latch_csBalanced (env : BusEnv) (enable cs : Nat)
    (tr : List busEvent) :
    csBalanced tr (cat25256_atomic_write_latch env enable cs tr).2 cs := by
  simp [cat25256_atomic_write_latch, cap_cs_enable, cap_write,
    cap_cs_disable, csBalanced, List.append_assoc, List.drop_left,
    isCsEnable, isCsDisable, selectedAfter]

/-- Auxiliary: the status-register read balances its chip-select activity. -/
lemma read_register_csBalanced (env : BusEnv)
    (handle : Option cat25256_handle_t) (b cs : Nat) (tr : List busEvent) :
    csBalanced tr (cat25256_read_register env handle b cs tr).2.2 cs := by
  simp only [cat25256_read_register, cap_cs_enable, cap_write, cap_read,
    cap_cs_disable]
  by_cases hc : cat25256_check_handle handle = MEMORY_STATUS_OK
  · by_cases hw : env.write_status (tr ++ [busEvent.ev_cs_enable cs])
        [RDSR] = MEMORY_STATUS_OK <;>
      simp [hc, hw, csBalanced, List.append_assoc, List.drop_left,
        isCsEnable, isCsDisable, selectedAfter]
  · simp [hc, csBalanced, List.drop_length, selectedAfter]

/-- Auxiliary: the status-register write balances its chip-select
activity. -/
lemma write_register_csBalanced (env : BusEnv)
    (handle : Option cat25256_handle_t) (b cs : Nat) (tr : List busEvent) :
    csBalanced tr (cat25256_write_register env handle b cs tr).2 cs := by
  simp only [cat25256_write_register, cap_cs_enable, cap_write,
    cap_cs_disable]
  by_cases hc : cat25256_check_handle handle = MEMORY_STATUS_OK <;>
    simp [hc, csBalanced, List.append_assoc, List.drop_left,
      List.drop_length, isCsEnable, isCsDisable, selectedAfter]

/-- C7: every transaction primitive that may enable chip-select (the read
transaction, the write transaction, the write-latch enable/disable with an
arbitrary opcode byte, the status-register read and the status-register
write) appends equally many chip-select enables and disables to the trace
and, whenever it appended any bus activity at all, leaves the chip-select
line deasserted on return, on success and failure paths alike. -/
theorem claim_C7 (env : BusEnv) (handle : Option cat25256_handle_t)
    (address : Nat) (data : List Nat) (length enable b cs : Nat)
    (tr : List busEvent) :
    csBalanced tr (cat25256_atomic_read env address data length cs tr).2.2
      cs ∧
    csBalanced tr (cat25256_atomic_write env address data length cs tr).2
      cs ∧
    csBalanced tr (cat25256_atomic_write_latch env enable cs tr).2 cs ∧
    csBalanced tr (cat25256_read_register env handle b cs tr).2.2 cs ∧
    csBalanced tr (cat25256_write_register env handle b cs tr).2 cs :=
  ⟨atomic_read_csBalanced env address data length cs tr,
    atomic_write_csBalanced env address data length cs tr,
    atomic_write_latch_csBalanced env enable cs tr,
    read_register_csBalanced env handle b cs tr,
    write_register_csBalanced env handle b cs tr⟩

/-- Auxiliary: the status-register write appends no read event. -/
lemma write_register_countP_read (env : BusEnv)
    (handle : Option cat25256_handle_t) (b cs : Nat) (tr : List busEvent) :
    (cat25256_write_register env handle b cs tr).2.countP isReadEvent =
      tr.countP isReadEvent := by
  simp only [cat25256_write_register, cap_cs_enable, cap_write,
    cap_cs_disable]
  by_cases hc : cat25256_check_handle handle = MEMORY_STATUS_OK <;>
    simp [hc, List.countP_append, List.countP_cons, isReadEvent]

/-- Auxiliary: the write-latch primitive appends no read event. -/
lemma atomic_write_latch_countP_read (env : BusEnv) (enable cs : Nat)
    (tr : List busEvent) :
    (cat25256_atomic_write_latch env enable cs tr).2.countP isReadEvent =
      tr.countP isReadEvent := by
  simp [cat25256_atomic_write_latch, cap_cs_enable, cap_write,
    cap_cs_disable, List.countP_append, List.countP_cons, isReadEvent]

/-- Auxiliary: the write transaction appends no read event. -/
lemma atomic_write_countP_read (env : BusEnv) (address : Nat)
    (data : List Nat) (length cs : Nat) (tr : List busEvent) :
    (cat25256_atomic_write env address data length cs tr).2.countP
      isReadEvent = tr.countP isReadEvent := by
  simp only [cat25256_atomic_write, cap_cs_enable, cap_write,
    cap_cs_disable]
  by_cases hw : env.write_status (tr ++ [busEvent.ev_cs_enable cs])
      [WRITE_OP, address / 256 % 256, address % 256] = MEMORY_STATUS_OK <;>
    simp [hw, List.countP_append, List.countP_cons, isReadEvent]

/-- C5: when the framed write inside cat25256_write_page fails (header or
payload), the write-latch disable is issued as the final bus activity before
the error is returned, the overall result is the generic MEMORY_STATUS_NOK,
and no busy-poll is attempted: the whole failing call appends no read event
to the trace. -/
theorem claim_C5 (env : BusEnv) (handle : Option cat25256_handle_t)
    (fuel address : Nat) (data : List Nat) (length cs : Nat)
    (tr tr1 tr2 tr3 : List busEvent) (st3 : memory_status_t)
    (hh : cat25256_check_handle handle = MEMORY_STATUS_OK)
    (h1 : cat25256_write_register env handle NREADY cs tr =
      (MEMORY_STATUS_OK, tr1))
    (h2 : cat25256_atomic_write_latch_enable env cs tr1 =
      (MEMORY_STATUS_OK, tr2))
    (h3 : cat25256_atomic_write env address data length cs tr2 = (st3, tr3))
    (hst3 : st3 ≠ MEMORY_STATUS_OK) :
    cat25256_write_page env handle fuel address data length cs tr =
      (some MEMORY_STATUS_NOK, tr3 ++ [busEvent.ev_cs_enable cs,
        busEvent.ev_write [WRDI], busEvent.ev_cs_disable cs]) ∧
    (tr3 ++ [busEvent.ev_cs_enable cs, busEvent.ev_write [WRDI],
      busEvent.ev_cs_disable cs]).countP isReadEvent =
      tr.countP isReadEvent := by
  have e1 : tr1.countP isReadEvent = tr.countP isReadEvent := by
    have h := write_register_countP_read env handle NREADY cs tr
    rw [h1] at h
    exact h
  have h2' : cat25256_atomic_write_latch env WREN cs tr1 =
      (MEMORY_STATUS_OK, tr2) := h2
  have e2 : tr2.countP isReadEvent = tr1.countP isReadEvent := by
    have h := atomic_write_latch_countP_read env WREN cs tr1
    rw [h2'] at h
    exact h
  have e3 : tr3.countP isReadEvent = tr2.countP isReadEvent := by
    have h := atomic_write_countP_read env address data length cs tr2
    rw [h3] at h
    exact h
  constructor
  · simp [cat25256_write_page, hh, h1, h2, h3, hst3,
      cat25256_atomic_write_latch_disable, cat25256_atomic_write_latch,
      cap_cs_enable, cap_write, cap_cs_disable, List.append_assoc]
  · simp [List.countP_append, List.countP_cons, isReadEvent, e3, e2, e1]

/-- Witness for C5: with the environment whose seventh and later bus writes
fail, a page write of two bytes at address 0 fails at the framed write's
header send; the call returns NOK after issuing the latch disable, with no
read event on the trace. -/
theorem claim_C5_witness :
    cat25256_write_page busWriteFailLate handleAllPresent 1 0 [170, 187] 2 0
        [] =
      (some MEMORY_STATUS_NOK,
        [busEvent.ev_cs_enable 0, busEvent.ev_write [1, 1],
          busEvent.ev_cs_disable 0, busEvent.ev_cs_enable 0,
          busEvent.ev_write [6], busEvent.ev_cs_disable 0,
          busEvent.ev_cs_enable 0, busEvent.ev_write [2, 0, 0],
          busEvent.ev_cs_disable 0] ++
        [busEvent.ev_cs_enable 0, busEvent.ev_write [WRDI],
          busEvent.ev_cs_disable 0]) ∧
    ([busEvent.ev_cs_enable 0, busEvent.ev_write [1, 1],
      busEvent.ev_cs_disable 0, busEvent.ev_cs_enable 0,
      busEvent.ev_write [6], busEvent.ev_cs_disable 0,
      busEvent.ev_cs_enable 0, busEvent.ev_write [2, 0, 0],
      busEvent.ev_cs_disable 0] ++
      [busEvent.ev_cs_enable 0, busEvent.ev_write [WRDI],
        busEvent.ev_cs_disable 0]).countP isReadEvent =
      ([] : List busEvent).countP isReadEvent :=
  claim_C5 busWriteFailLate handleAllPresent 1 0 [170, 187] 2 0 []
    [busEvent.ev_cs_enable 0, busEvent.ev_write [1, 1],
      busEvent.ev_cs_disable 0]
    [busEvent.ev_cs_enable 0, busEvent.ev_write [1, 1],
      busEvent.ev_cs_disable 0, busEvent.ev_cs_enable 0,
      busEvent.ev_write [6], busEvent.ev_cs_disable 0]
    [busEvent.ev_cs_enable 0, busEvent.ev_write [1, 1],
      busEvent.ev_cs_disable 0, busEvent.ev_cs_enable 0,
      busEvent.ev_write [6], busEvent.ev_cs_disable 0,
      busEvent.ev_cs_enable 0, busEvent.ev_write [2, 0, 0],
      busEvent.ev_cs_disable 0]
    MEMORY_STATUS_NOK rfl (by decide) (by decide) (by decide) (by decide)

/-- Auxiliary: the busy-wait loop exits with OK as soon as its local byte has
the busy bit clear, independently of the remaining fuel. -/
lemma wait_go_clear (env : BusEnv) (handle : Option cat25256_handle_t)
    (fuel wip cs : Nat) (tr : List busEvent) (h : wip &&& NREADY = 0) :
    cat25256_wait_go env handle fuel wip cs tr =
      (some MEMORY_STATUS_OK, tr) := by
  cases fuel <;> simp [cat25256_wait_go, h]

/-- Auxiliary: one iteration of the busy-wait loop while the busy bit is
set: re-read the status register, return NOK at once on a failed read, and
otherwise continue with the freshly read byte. -/
lemma wait_go_busy_step (env : BusEnv) (handle : Option cat25256_handle_t)
    (fuel wip cs : Nat) (tr : List busEvent) (h : wip &&& NREADY ≠ 0) :
    cat25256_wait_go env handle (fuel + 1) wip cs tr =
      (if (cat25256_read_register env handle wip cs tr).1 ≠
          MEMORY_STATUS_OK then
        (some MEMORY_STATUS_NOK,
          (cat25256_read_register env handle wip cs tr).2.2)
      else
        cat25256_wait_go env handle fuel
          (cat25256_read_register env handle wip cs tr).2.1 cs
          (cat25256_read_register env handle wip cs tr).2.2) := by
  simp [cat25256_wait_go, h]

/-- Auxiliary: with a valid handle, an always-successful RDSR send and a
device that always answers with the busy byte, the busy-wait loop never
returns, whatever the fuel. -/
lemma wait_go_busy_none (env : BusEnv) (handle : Option cat25256_handle_t)
    (cs : Nat) (hh : cat25256_check_handle handle = MEMORY_STATUS_OK)
    (hw : ∀ h, env.write_status h [RDSR] = MEMORY_STATUS_OK)
    (hr : ∀ h, env.read_result h 1 = (MEMORY_STATUS_OK, [NREADY])) :
    ∀ fuel tr, (cat25256_wait_go env handle fuel NREADY cs tr).1 = none := by
  intro fuel
  induction fuel with
  | zero =>
    intro tr
    simp [cat25256_wait_go, NREADY]
  | succ fuel ih =>
    intro tr
    rw [wait_go_busy_step env handle fuel NREADY cs tr (by decide)]
    have hrr : cat25256_read_register env handle NREADY cs tr =
        (MEMORY_STATUS_OK, NREADY, tr ++ [busEvent.ev_cs_enable cs,
          busEvent.ev_write [RDSR], busEvent.ev_read 1,
          busEvent.ev_cs_disable cs]) := by
      simp [cat25256_read_register, hh, cap_cs_enable, cap_write, cap_read,
        cap_cs_disable, hw, hr, List.append_assoc, NREADY]
    rw [hrr]
    simp
    exact ih _

/-- C9: the busy-wait completion check cat25256_atomic_wait_wip_completed
re-reads the status register while the busy bit is set: a failed
status-register read makes it return the generic MEMORY_STATUS_NOK at once;
a successful read delivering a byte with bit 0 clear makes it return
MEMORY_STATUS_OK; a successful read delivering a busy byte makes it loop and
read again; and the loop has no iteration bound: with a device that always
reports busy (and reads that always succeed) it never returns, for every
fuel bound. -/
theorem claim_C9 (env : BusEnv) (handle : Option cat25256_handle_t)
    (cs : Nat) (tr : List busEvent) (fuel : Nat) :
    ((cat25256_read_register env handle NREADY cs tr).1 ≠
        MEMORY_STATUS_OK →
      cat25256_atomic_wait_wip_completed env handle (fuel + 1) cs tr =
        (some MEMORY_STATUS_NOK,
          (cat25256_read_register env handle NREADY cs tr).2.2)) ∧
    ((cat25256_read_register env handle NREADY cs tr).1 =
        MEMORY_STATUS_OK →
      (cat25256_read_register env handle NREADY cs tr).2.1 &&& NREADY = 0 →
      cat25256_atomic_wait_wip_completed env handle (fuel + 1) cs tr =
        (some MEMORY_STATUS_OK,
          (cat25256_read_register env handle NREADY cs tr).2.2)) ∧
    ((cat25256_read_register env handle NREADY cs tr).1 =
        MEMORY_STATUS_OK →
      (cat25256_read_register env handle NREADY cs tr).2.1 &&& NREADY ≠ 0 →
      cat25256_atomic_wait_wip_completed env handle (fuel + 1) cs tr =
        cat25256_wait_go env handle fuel
          (cat25256_read_register env handle NREADY cs tr).2.1 cs
          (cat25256_read_register env handle NREADY cs tr).2.2) ∧
    (cat25256_check_handle handle = MEMORY_STATUS_OK →
      (∀ h, env.write_status h [RDSR] = MEMORY_STATUS_OK) →
      (∀ h, env.read_result h 1 = (MEMORY_STATUS_OK, [NREADY])) →
      ∀ f, (cat25256_atomic_wait_wip_completed env handle f cs tr).1 =
        none) := by
  refine ⟨?_, ?_, ?_, ?_⟩
  · intro hfail
    rw [cat25256_atomic_wait_wip_completed,
      wait_go_busy_step env handle fuel NREADY cs tr (by decide)]
    simp [hfail]
  · intro hok hclear
    rw [cat25256_atomic_wait_wip_completed,
      wait_go_busy_step env handle fuel NREADY cs tr (by decide)]
    simp [hok, wait_go_clear env handle fuel _ cs _ hclear]
  · intro hok hbusy
    rw [cat25256_atomic_wait_wip_completed,
      wait_go_busy_step env handle fuel NREADY cs tr (by decide)]
    simp [hok]
  · intro hh hw hr f
    exact wait_go_busy_none env handle cs hh hw hr f tr

/-- Witness for C9: with the always-failing read capability the wait returns
NOK after one read; with the all-OK environment it returns OK after one
read; and with the always-busy environment it is still running after five
reads. -/
theorem claim_C9_witness :
    cat25256_atomic_wait_wip_completed busReadFail handleAllPresent 1 0 [] =
      (some MEMORY_STATUS_NOK,
        [busEvent.ev_cs_enable 0, busEvent.ev_write [RDSR],
          busEvent.ev_read 1, busEvent.ev_cs_disable 0]) ∧
    cat25256_atomic_wait_wip_completed busAllOk handleAllPresent 1 0 [] =
      (some MEMORY_STATUS_OK,
        [busEvent.ev_cs_enable 0, busEvent.ev_write [RDSR],
          busEvent.ev_read 1, busEvent.ev_cs_disable 0]) ∧
    (cat25256_atomic_wait_wip_completed busBusy handleAllPresent 5 0 []).1 =
      none :=
  ⟨(claim_C9 busReadFail handleAllPresent 0 [] 0).1 (by decide),
    (claim_C9 busAllOk handleAllPresent 0 [] 0).2.1 (by decide) (by decide),
    (claim_C9 busBusy handleAllPresent 0 [] 0).2.2.2 rfl (fun _ => rfl)
      (fun _ => rfl) 5⟩

/-- Auxiliary: the read transaction ignores the chip-select statuses. -/
lemma atomic_read_env_congr (e1 e2 : BusEnv)
    (hw : e1.write_status = e2.write_status)
    (hr : e1.read_result = e2.read_result) (address : Nat) (data : List Nat)
    (length cs : Nat) (tr : List busEvent) :
    cat25256_atomic_read e1 address data length cs tr =
      cat25256_atomic_read e2 address data length cs tr := by
  simp only [cat25256_atomic_read, cap_cs_enable, cap_write, cap_read,
    cap_cs_disable, hw, hr]

/-- Auxiliary: cat25256_read ignores the chip-select statuses. -/
lemma read_env_congr (e1 e2 : BusEnv)
    (hw : e1.write_status = e2.write_status)
    (hr : e1.read_result = e2.read_result)
    (handle : Option cat25256_handle_t) (address : Nat) (data : List Nat)
    (length cs : Nat) (tr : List busEvent) :
    cat25256_read e1 handle address data length cs tr =
      cat25256_read e2 handle address data length cs tr := by
  simp only [cat25256_read, atomic_read_env_congr e1 e2 hw hr]

/-- Auxiliary: the write-latch primitive ignores the chip-select statuses. -/
lemma atomic_write_latch_env_congr (e1 e2 : BusEnv)
    (hw : e1.write_status = e2.write_status) (enable cs : Nat)
    (tr : List busEvent) :
    cat25256_atomic_write_latch e1 enable cs tr =
      cat25256_atomic_write_latch e2 enable cs tr := by
  simp only [cat25256_atomic_write_latch, cap_cs_enable, cap_write,
    cap_cs_disable, hw]

/-- Auxiliary: the write transaction ignores the chip-select statuses. -/
lemma atomic_write_env_congr (e1 e2 : BusEnv)
    (hw : e1.write_status = e2.write_status) (address : Nat)
    (data : List Nat) (length cs : Nat) (tr : List busEvent) :
    cat25256_atomic_write e1 address data length cs tr =
      cat25256_atomic_write e2 address data length cs tr := by
  simp only [cat25256_atomic_write, cap_cs_enable, cap_write,
    cap_cs_disable, hw]

/-- Auxiliary: the status-register read ignores the chip-select statuses. -/
lemma read_register_env_congr (e1 e2 : BusEnv)
    (hw : e1.write_status = e2.write_status)
    (hr : e1.read_result = e2.read_result)
    (handle : Option cat25256_handle_t) (b cs : Nat) (tr : List busEvent) :
    cat25256_read_register e1 handle b cs tr =
      cat25256_read_register e2 handle b cs tr := by
  simp only [cat25256_read_register, cap_cs_enable, cap_write, cap_read,
    cap_cs_disable, hw, hr]

/-- Auxiliary: the status-register write ignores the chip-select statuses. -/
lemma write_register_env_congr (e1 e2 : BusEnv)
    (hw : e1.write_status = e2.write_status)
    (handle : Option cat25256_handle_t) (b cs : Nat) (tr : List busEvent) :
    cat25256_write_register e1 handle b cs tr =
      cat25256_write_register e2 handle b cs tr := by
  simp only [cat25256_write_register, cap_cs_enable, cap_write,
    cap_cs_disable, hw]

/-- Auxiliary: the busy-wait loop ignores the chip-select statuses. -/
lemma wait_go_env_congr (e1 e2 : BusEnv)
    (hw : e1.write_status = e2.write_status)
    (hr : e1.read_result = e2.read_result)
    (handle : Option cat25256_handle_t) (cs : Nat) :
    ∀ (fuel wip : Nat) (tr : List busEvent),
      cat25256_wait_go e1 handle fuel wip cs tr =
        cat25256_wait_go e2 handle fuel wip cs tr := by
  intro fuel
  induction fuel with
  | zero =>
    intro wip tr
    simp [cat25256_wait_go]
  | succ fuel ih =>
    intro wip tr
    by_cases hclear : wip &&& NREADY = 0
    · rw [wait_go_clear e1 handle _ wip cs tr hclear,
        wait_go_clear e2 handle _ wip cs tr hclear]
    · rw [wait_go_busy_step e1 handle fuel wip cs tr hclear,
        wait_go_busy_step e2 handle fuel wip cs tr hclear,
        read_register_env_congr e1 e2 hw hr handle wip cs tr, ih]

/-- Auxiliary: the busy-wait entry point ignores the chip-select statuses. -/
lemma wait_env_congr (e1 e2 : BusEnv)
    (hw : e1.write_status = e2.write_status)
    (hr : e1.read_result = e2.read_result)
    (handle : Option cat25256_handle_t) (fuel cs : Nat)
    (tr : List busEvent) :
    cat25256_atomic_wait_wip_completed e1 handle fuel cs tr =
      cat25256_atomic_wait_wip_completed e2 handle fuel cs tr := by
  simp only [cat25256_atomic_wait_wip_completed,
    wait_go_env_congr e1 e2 hw hr]

/-- Auxiliary: cat25256_write_page ignores the chip-select statuses. -/
lemma write_page_env_congr (e1 e2 : BusEnv)
    (hw : e1.write_status = e2.write_status)
    (hr : e1.read_result = e2.read_result)
    (handle : Option cat25256_handle_t) (fuel address : Nat)
    (data : List Nat) (length cs : Nat) (tr : List busEvent) :
    cat25256_write_page e1 handle fuel address data length cs tr =
      cat25256_write_page e2 handle fuel address data length cs tr := by
  simp only [cat25256_write_page, cat25256_atomic_write_latch_enable,
    cat25256_atomic_write_latch_disable,
    write_register_env_congr e1 e2 hw,
    atomic_write_latch_env_congr e1 e2 hw,
    atomic_write_env_congr e1 e2 hw, wait_env_congr e1 e2 hw hr]

/-- Auxiliary: the aligned page loop ignores the chip-select statuses. -/
lemma aligned_go_env_congr (e1 e2 : BusEnv)
    (hw : e1.write_status = e2.write_status)
    (hr : e1.read_result = e2.read_result)
    (handle : Option cat25256_handle_t) (fuel page_count address : Nat)
    (data : List Nat) (length cs : Nat) :
    ∀ (n i : Nat) (tr : List busEvent),
      cat25256_write_aligned_go e1 handle fuel page_count i n address data
          length cs tr =
        cat25256_write_aligned_go e2 handle fuel page_count i n address data
          length cs tr := by
  intro n
  induction n with
  | zero =>
    intro i tr
    simp [cat25256_write_aligned_go]
  | succ n ih =>
    intro i tr
    simp only [cat25256_write_aligned_go,
      write_page_env_congr e1 e2 hw hr, ih]

/-- Auxiliary: cat25256_write ignores the chip-select statuses. -/
lemma write_env_congr (e1 e2 : BusEnv)
    (hw : e1.write_status = e2.write_status)
    (hr : e1.read_result = e2.read_result)
    (handle : Option cat25256_handle_t) (fuel address : Nat)
    (data : List Nat) (length cs : Nat) (tr : List busEvent) :
    cat25256_write e1 handle fuel address data length cs tr =
      cat25256_write e2 handle fuel address data length cs tr := by
  simp only [cat25256_write, cat25256_write_address_aligned,
    cat25256_write_address_unaligned, write_page_env_congr e1 e2 hw hr,
    aligned_go_env_congr e1 e2 hw hr]

/-- C10: the statuses returned by the chip-select enable and disable
capabilities are ignored throughout: for any two bus environments that agree
on the write and read capability behaviour (and may disagree arbitrarily on
every chip-select status), all five public operations return identical
results, so chip-select failures can never change an operation's outcome. -/
theorem claim_C10 (e1 e2 : BusEnv) (hw : e1.write_status = e2.write_status)
    (hr : e1.read_result = e2.read_result)
    (handle : Option cat25256_handle_t) (fuel address : Nat)
    (data : List Nat) (length b cs : Nat) (tr : List busEvent) :
    cat25256_read e1 handle address data length cs tr =
      cat25256_read e2 handle address data length cs tr ∧
    cat25256_write e1 handle fuel address data length cs tr =
      cat25256_write e2 handle fuel address data length cs tr ∧
    cat25256_write_page e1 handle fuel address data length cs tr =
      cat25256_write_page e2 handle fuel address data length cs tr ∧
    cat25256_read_register e1 handle b cs tr =
      cat25256_read_register e2 handle b cs tr ∧
    cat25256_write_register e1 handle b cs tr =
      cat25256_write_register e2 handle b cs tr :=
  ⟨read_env_congr e1 e2 hw hr handle address data length cs tr,
    write_env_congr e1 e2 hw hr handle fuel address data length cs tr,
    write_page_env_congr e1 e2 hw hr handle fuel address data length cs tr,
    read_register_env_congr e1 e2 hw hr handle b cs tr,
    write_register_env_congr e1 e2 hw handle b cs tr⟩

/-- Witness for C10: the all-OK environment and the environment whose
chip-select calls always fail agree on read/write behaviour, so every
operation returns the same result under both; in particular a page write
still reports overall success while every chip-select call failed. -/
theorem claim_C10_witness :
    busAllOk.write_status = busCsFail.write_status ∧
    busAllOk.read_result = busCsFail.read_result ∧
    cat25256_write_page busAllOk handleAllPresent 1 0 [170] 1 0 [] =
      cat25256_write_page busCsFail handleAllPresent 1 0 [170] 1 0 [] ∧
    (cat25256_write_page busCsFail handleAllPresent 1 0 [170] 1 0 []).1 =
      some MEMORY_STATUS_OK :=
  ⟨rfl, rfl,
    (claim_C10 busAllOk busCsFail rfl rfl handleAllPresent 1 0 [170] 1 0 0
      []).2.2.1,
    by decide⟩

/-- Auxiliary: lists of different lengths are different. -/
lemma list_ne_of_length_ne {α : Type} {a b : List α}
    (h : a.length ≠ b.length) : a ≠ b :=
  fun he => h (he ▸ rfl)

/-- Auxiliary: the write-latch primitive always appends exactly its
chip-select scope and opcode send, whatever the statuses. -/
lemma latch_trace (env : BusEnv) (enable cs : Nat) (tr : List busEvent) :
    (cat25256_atomic_write_latch env enable cs tr).2 =
      tr ++ [busEvent.ev_cs_enable cs, busEvent.ev_write [enable],
        busEvent.ev_cs_disable cs] := by
  simp [cat25256_atomic_write_latch, cap_cs_enable, cap_write,
    cap_cs_disable, List.append_assoc]

/-- Auxiliary: a status-register write that returned OK appended exactly its
chip-select scope and two-byte send. -/
lemma write_register_ok_trace (env : BusEnv)
    (handle : Option cat25256_handle_t) (b cs : Nat)
    (tr tr' : List busEvent)
    (h : cat25256_write_register env handle b cs tr =
      (MEMORY_STATUS_OK, tr')) :
    tr' = tr ++ [busEvent.ev_cs_enable cs, busEvent.ev_write [WRSR, b],
      busEvent.ev_cs_disable cs] := by
  simp only [cat25256_write_register, cap_cs_enable, cap_write,
    cap_cs_disable] at h
  by_cases hc : cat25256_check_handle handle = MEMORY_STATUS_OK
  · simp [hc, List.append_assoc] at h
    exact h.2.symm
  · simp [hc] at h

/-- Auxiliary: a framed write that returned OK appended exactly its
chip-select scope, header send and payload send. -/
lemma atomic_write_ok_trace (env : BusEnv) (address : Nat) (data : List Nat)
    (length cs : Nat) (tr tr' : List busEvent)
    (h : cat25256_atomic_write env address data length cs tr =
      (MEMORY_STATUS_OK, tr')) :
    tr' = tr ++ [busEvent.ev_cs_enable cs,
      busEvent.ev_write [WRITE_OP, address / 256 % 256, address % 256],
      busEvent.ev_write (data.take length), busEvent.ev_cs_disable cs] := by
  simp only [cat25256_atomic_write, cap_cs_enable, cap_write,
    cap_cs_disable] at h
  by_cases hw : env.write_status (tr ++ [busEvent.ev_cs_enable cs])
      [WRITE_OP, address / 256 % 256, address % 256] = MEMORY_STATUS_OK
  · simp [hw, List.append_assoc] at h
    exact h.2.symm
  · simp [hw] at h

/-- Auxiliary: the status-register read never shortens the trace. -/
lemma read_register_trace_mono (env : BusEnv)
    (handle : Option cat25256_handle_t) (b cs : Nat) (tr : List busEvent) :
    tr.length ≤ (cat25256_read_register env handle b cs tr).2.2.length := by
  simp only [cat25256_read_register, cap_cs_enable, cap_write, cap_read,
    cap_cs_disable]
  by_cases hc : cat25256_check_handle handle = MEMORY_STATUS_OK
  · by_cases hw : env.write_status (tr ++ [busEvent.ev_cs_enable cs])
        [RDSR] = MEMORY_STATUS_OK <;>
      simp [hc, hw]
  · simp [hc]

/-- Auxiliary: two environments that agree on the read capability and whose
write capabilities agree on every history longer than `N` give the
status-register read identical results on traces of length at least `N`. -/
lemma read_register_env_congr_ge (e1 e2 : BusEnv) (N : Nat)
    (hr : e1.read_result = e2.read_result)
    (hw : ∀ h d, N < h.length → e1.write_status h d = e2.write_status h d)
    (handle : Option cat25256_handle_t) (b cs : Nat) (tr : List busEvent)
    (htr : N ≤ tr.length) :
    cat25256_read_register e1 handle b cs tr =
      cat25256_read_register e2 handle b cs tr := by
  have hq := hw (tr ++ [busEvent.ev_cs_enable cs]) [RDSR]
    (by simp; omega)
  simp only [cat25256_read_register, cap_cs_enable, cap_write, cap_read,
    cap_cs_disable, hq, hr]

/-- Auxiliary: under the same agreement, the busy-wait loop behaves
identically on traces of length at least `N`. -/
lemma wait_go_env_congr_ge (e1 e2 : BusEnv) (N : Nat)
    (hr : e1.read_result = e2.read_result)
    (hw : ∀ h d, N < h.length → e1.write_status h d = e2.write_status h d)
    (handle : Option cat25256_handle_t) (cs : Nat) :
    ∀ (fuel wip : Nat) (tr : List busEvent), N ≤ tr.length →
      cat25256_wait_go e1 handle fuel wip cs tr =
        cat25256_wait_go e2 handle fuel wip cs tr := by
  intro fuel
  induction fuel with
  | zero =>
    intro wip tr _
    simp [cat25256_wait_go]
  | succ fuel ih =>
    intro wip tr htr
    by_cases hclear : wip &&& NREADY = 0
    · rw [wait_go_clear e1 handle _ wip cs tr hclear,
        wait_go_clear e2 handle _ wip cs tr hclear]
    · rw [wait_go_busy_step e1 handle fuel wip cs tr hclear,
        wait_go_busy_step e2 handle fuel wip cs tr hclear,
        read_register_env_congr_ge e1 e2 N hr hw handle wip cs tr htr]
      by_cases hfail : (cat25256_read_register e2 handle wip cs tr).1 =
          MEMORY_STATUS_OK
      · simp only [hfail]
        simp only [ne_eq, not_true_eq_false, if_false]
        exact ih _ _ (le_trans htr (read_register_trace_mono e2 handle wip
          cs tr))
      · simp [hfail]

/-- Auxiliary: two environments whose write capabilities agree on histories
extending the trace by at most two events give the status-register write
identical results. -/
lemma write_register_env_congr_win (e1 e2 : BusEnv)
    (handle : Option cat25256_handle_t) (b cs : Nat) (tr : List busEvent)
    (hw : ∀ h d, tr.length < h.length → h.length ≤ tr.length + 2 →
      e1.write_status h d = e2.write_status h d) :
    cat25256_write_register e1 handle b cs tr =
      cat25256_write_register e2 handle b cs tr := by
  have hq := hw (tr ++ [busEvent.ev_cs_enable cs]) [WRSR, b]
    (by simp) (by simp)
  simp only [cat25256_write_register, cap_cs_enable, cap_write,
    cap_cs_disable, hq]

/-- Auxiliary: the same, for the write-latch primitive. -/
lemma atomic_write_latch_env_congr_win (e1 e2 : BusEnv) (enable cs : Nat)
    (tr : List busEvent)
    (hw : ∀ h d, tr.length < h.length → h.length ≤ tr.length + 2 →
      e1.write_status h d = e2.write_status h d) :
    cat25256_atomic_write_latch e1 enable cs tr =
      cat25256_atomic_write_latch e2 enable cs tr := by
  have hq := hw (tr ++ [busEvent.ev_cs_enable cs]) [enable]
    (by simp) (by simp)
  simp only [cat25256_atomic_write_latch, cap_cs_enable, cap_write,
    cap_cs_disable, hq]

/-- Auxiliary: the same, for the framed write transaction. -/
lemma atomic_write_env_congr_win (e1 e2 : BusEnv) (address : Nat)
    (data : List Nat) (length cs : Nat) (tr : List busEvent)
    (hw : ∀ h d, tr.length < h.length → h.length ≤ tr.length + 2 →
      e1.write_status h d = e2.write_status h d) :
    cat25256_atomic_write e1 address data length cs tr =
      cat25256_atomic_write e2 address data length cs tr := by
  have hq1 := hw (tr ++ [busEvent.ev_cs_enable cs])
    [WRITE_OP, address / 256 % 256, address % 256] (by simp) (by simp)
  have hq2 := hw (tr ++ [busEvent.ev_cs_enable cs,
      busEvent.ev_write [WRITE_OP, address / 256 % 256, address % 256]])
    (data.take length) (by simp) (by simp)
  simp only [cat25256_atomic_write, cap_cs_enable, cap_write,
    cap_cs_disable, List.append_assoc, List.cons_append, List.nil_append,
    hq1, hq2]

/-- C8: once the payload write transaction inside cat25256_write_page has
succeeded, the status of the subsequent write-latch disable has no influence
on the overall result: replacing the bus environment's answer to exactly the
latch-disable send (the write issued at the history tr3 ++ [chip-select
enable], immediately after the successful framed write produced the trace
tr3) by an arbitrary status leaves the result of cat25256_write_page, value
and trace alike, unchanged. -/
theorem claim_C8 (env : BusEnv)
    (g : List busEvent → List Nat → memory_status_t)
    (handle : Option cat25256_handle_t) (fuel address : Nat)
    (data : List Nat) (length cs : Nat) (tr tr1 tr2 tr3 : List busEvent)
    (hh : cat25256_check_handle handle = MEMORY_STATUS_OK)
    (h1 : cat25256_write_register env handle NREADY cs tr =
      (MEMORY_STATUS_OK, tr1))
    (h2 : cat25256_atomic_write_latch_enable env cs tr1 =
      (MEMORY_STATUS_OK, tr2))
    (h3 : cat25256_atomic_write env address data length cs tr2 =
      (MEMORY_STATUS_OK, tr3))
    (env' : BusEnv)
    (henv' : env' = BusEnv.mk
      (fun hist d =>
        if hist = tr3 ++ [busEvent.ev_cs_enable cs] then g hist d
        else env.write_status hist d)
      env.read_result env.cs_enable_status env.cs_disable_status) :
    cat25256_write_page env handle fuel address data length cs tr =
      cat25256_write_page env' handle fuel address data length cs tr := by
  have A1 := write_register_ok_trace env handle NREADY cs tr tr1 h1
  have A2 : tr2 = tr1 ++ [busEvent.ev_cs_enable cs,
      busEvent.ev_write [WREN], busEvent.ev_cs_disable cs] := by
    have hsnd := congrArg Prod.snd h2
    simp only [cat25256_atomic_write_latch_enable, latch_trace] at hsnd
    exact hsnd.symm
  have A3 := atomic_write_ok_trace env address data length cs tr2 tr3 h3
  have L1 : tr1.length = tr.length + 3 := by rw [A1]; simp
  have L2 : tr2.length = tr1.length + 3 := by rw [A2]; simp
  have L3 : tr3.length = tr2.length + 4 := by rw [A3]; simp
  have hrr : env'.read_result = env.read_result := by rw [henv']
  have hws : ∀ h d, h.length ≠ tr3.length + 1 →
      env'.write_status h d = env.write_status h d := by
    intro h d hne
    rw [henv']
    exact if_neg (fun he => hne (by rw [he]; simp))
  have Hw_tr : ∀ h d, tr.length < h.length → h.length ≤ tr.length + 2 →
      env'.write_status h d = env.write_status h d :=
    fun h d hlo hhi => hws h d (by omega)
  have Hw_tr1 : ∀ h d, tr1.length < h.length → h.length ≤ tr1.length + 2 →
      env'.write_status h d = env.write_status h d :=
    fun h d hlo hhi => hws h d (by omega)
  have Hw_tr2 : ∀ h d, tr2.length < h.length → h.length ≤ tr2.length + 2 →
      env'.write_status h d = env.write_status h d :=
    fun h d hlo hhi => hws h d (by omega)
  have h2L : cat25256_atomic_write_latch env WREN cs tr1 =
      (MEMORY_STATUS_OK, tr2) := h2
  have S1 : cat25256_write_register env' handle NREADY cs tr =
      (MEMORY_STATUS_OK, tr1) := by
    rw [write_register_env_congr_win env' env handle NREADY cs tr Hw_tr]
    exact h1
  have S2 : cat25256_atomic_write_latch env' WREN cs tr1 =
      (MEMORY_STATUS_OK, tr2) := by
    rw [atomic_write_latch_env_congr_win env' env WREN cs tr1 Hw_tr1]
    exact h2L
  have S3 : cat25256_atomic_write env' address data length cs tr2 =
      (MEMORY_STATUS_OK, tr3) := by
    rw [atomic_write_env_congr_win env' env address data length cs tr2
      Hw_tr2]
    exact h3
  have S5 : cat25256_atomic_wait_wip_completed env' handle fuel cs
      (tr3 ++ [busEvent.ev_cs_enable cs, busEvent.ev_write [WRDI],
        busEvent.ev_cs_disable cs]) =
      cat25256_atomic_wait_wip_completed env handle fuel cs
      (tr3 ++ [busEvent.ev_cs_enable cs, busEvent.ev_write [WRDI],
        busEvent.ev_cs_disable cs]) := by
    simp only [cat25256_atomic_wait_wip_completed]
    refine wait_go_env_congr_ge env' env (tr3.length + 1) hrr
      (fun h d hlt => hws h d (by omega)) handle cs fuel NREADY _ (by simp)
  simp [cat25256_write_page, hh, h1, h2L, h3, S1, S2, S3,
    cat25256_atomic_write_latch_enable, cat25256_atomic_write_latch_disable,
    latch_trace, S5]

/-- Witness for C8: in the all-OK environment, failing exactly the
latch-disable send that follows the successful two-byte payload write (the
write issued at the history of ten events extended by the chip-select
enable) leaves the result of cat25256_write_page unchanged, and that result
is still overall success. -/
theorem claim_C8_witness :
    cat25256_write_page busAllOk handleAllPresent 1 0 [170, 187] 2 0 [] =
      cat25256_write_page (BusEnv.mk
        (fun hist d =>
          if hist = [busEvent.ev_cs_enable 0, busEvent.ev_write [1, 1],
              busEvent.ev_cs_disable 0, busEvent.ev_cs_enable 0,
              busEvent.ev_write [6], busEvent.ev_cs_disable 0,
              busEvent.ev_cs_enable 0, busEvent.ev_write [2, 0, 0],
              busEvent.ev_write [170, 187], busEvent.ev_cs_disable 0] ++
              [busEvent.ev_cs_enable 0] then MEMORY_STATUS_NOK
          else busAllOk.write_status hist d)
        busAllOk.read_result busAllOk.cs_enable_status
        busAllOk.cs_disable_status) handleAllPresent 1 0 [170, 187] 2 0
        [] ∧
    (cat25256_write_page (BusEnv.mk
        (fun hist d =>
          if hist = [busEvent.ev_cs_enable 0, busEvent.ev_write [1, 1],
              busEvent.ev_cs_disable 0, busEvent.ev_cs_enable 0,
              busEvent.ev_write [6], busEvent.ev_cs_disable 0,
              busEvent.ev_cs_enable 0, busEvent.ev_write [2, 0, 0],
              busEvent.ev_write [170, 187], busEvent.ev_cs_disable 0] ++
              [busEvent.ev_cs_enable 0] then MEMORY_STATUS_NOK
          else busAllOk.write_status hist d)
        busAllOk.read_result busAllOk.cs_enable_status
        busAllOk.cs_disable_status) handleAllPresent 1 0 [170, 187] 2 0
        []).1 = some MEMORY_STATUS_OK :=
  ⟨claim_C8 busAllOk (fun _ _ => MEMORY_STATUS_NOK) handleAllPresent 1 0
      [170, 187] 2 0 []
      [busEvent.ev_cs_enable 0, busEvent.ev_write [1, 1],
        busEvent.ev_cs_disable 0]
      [busEvent.ev_cs_enable 0, busEvent.ev_write [1, 1],
        busEvent.ev_cs_disable 0, busEvent.ev_cs_enable 0,
        busEvent.ev_write [6], busEvent.ev_cs_disable 0]
      [busEvent.ev_cs_enable 0, busEvent.ev_write [1, 1],
        busEvent.ev_cs_disable 0, busEvent.ev_cs_enable 0,
        busEvent.ev_write [6], busEvent.ev_cs_disable 0,
        busEvent.ev_cs_enable 0, busEvent.ev_write [2, 0, 0],
        busEvent.ev_write [170, 187], busEvent.ev_cs_disable 0]
      (by decide) (by decide) (by decide) (by decide) _ rfl,
    by decide⟩
